import Mathlib

/-
  Shallow embedding of the capture pipeline in zbl/src/capture.rs.

  The pipeline state (`CaptureState`) mirrors the fields of `struct Capture`;
  the two mpsc channels (`frame_source`, `capture_done_signal`) are modelled
  as explicit channel states (buffered items plus connection flags), and every
  fallible Windows API call is resolved through an explicit environment record
  (`GrabEnv`, `StopEnv`, `FrameArrivedEnv`) so that each operation is a pure
  state-transition function.  The busy-poll loop in `grab_next` repeats with an
  unchanged state when both channels are empty, so it is modelled by the
  distinguished outcome `GrabResult.blocks`; an `unwrap()` on `None` is the
  outcome `GrabResult.panics`.
-/

deriving instance DecidableEq for Except

namespace Zbl

/-- Error values (standing for `windows::core::Error`). -/
abbrev Err := Nat

/-- Model of `windows::Graphics::SizeInt32` (two i32 fields). -/
structure SizeInt32 where
  Width : Int
  Height : Int
deriving DecidableEq, Repr

/-- The value `SizeInt32::default()` is all-zero. -/
def SizeInt32.default : SizeInt32 := ⟨0, 0⟩

/-- Model of `D3D11_BOX` (six u32 fields). -/
structure D3D11Box where
  left : Nat
  top : Nat
  front : Nat
  right : Nat
  bottom : Nat
  back : Nat
deriving DecidableEq, Repr

/-- u32 wrapping subtraction (release-mode Rust `a - b` on u32). -/
def sub32 (a b : Nat) : Nat := (a % 2 ^ 32 + 2 ^ 32 - b % 2 ^ 32) % 2 ^ 32

/-- State of one `std::sync::mpsc` channel: buffered messages in FIFO order
plus liveness of the two endpoints. -/
structure Channel (α : Type) where
  items : List α
  senderConnected : Bool
  receiverConnected : Bool
deriving DecidableEq, Repr

inductive TryRecvResult (α : Type) where
  | ok : α → TryRecvResult α
  | empty : TryRecvResult α
  | disconnected : TryRecvResult α
deriving DecidableEq, Repr

inductive TrySendResult where
  | sent : TrySendResult
  | full : TrySendResult
  | disconnected : TrySendResult
deriving DecidableEq, Repr

/-- Model of `Receiver::try_recv`: a buffered message is delivered even after the sender
dropped; `Empty` while the sender is alive, `Disconnected` otherwise. -/
def Channel.tryRecv {α : Type} (ch : Channel α) : TryRecvResult α × Channel α :=
  match ch.items with
  | x :: rest => (TryRecvResult.ok x, { ch with items := rest })
  | [] =>
    if ch.senderConnected then (TryRecvResult.empty, ch)
    else (TryRecvResult.disconnected, ch)

/-- Capacity of the pending-frame queue: `sync_channel(1 << 5)` in `Capture::new`. -/
def QUEUE_CAPACITY : Nat := 2 ^ 5

/-- Model of `SyncSender::try_send` on the bounded frame queue: fails with `Full` when
`QUEUE_CAPACITY` messages are buffered, with `Disconnected` when the receiver
was dropped, otherwise appends the message at the tail. -/
def Channel.trySend {α : Type} (ch : Channel α) (x : α) : TrySendResult × Channel α :=
  if ch.receiverConnected = false then (TrySendResult.disconnected, ch)
  else if QUEUE_CAPACITY ≤ ch.items.length then (TrySendResult.full, ch)
  else (TrySendResult.sent, { ch with items := ch.items ++ [x] })

/-- The `ID3D11Texture2D` extracted from a frame surface: its `GetDesc` format,
and the result of the later `frame_texture.cast()` call. -/
structure FrameTex where
  descFormat : Nat
  castRes : Except Err Unit
deriving DecidableEq, Repr

/-- A `Direct3D11CaptureFrame` as far as `grab_next` / the producer callback
consult it: results of `Surface()` (composed with
`get_dxgi_interface_from_object`), `ContentSize()` and `SystemRelativeTime()`. -/
structure CaptureFrame where
  surface : Except Err FrameTex
  contentSizeRes : Except Err SizeInt32
  tsRes : Except Err Int
deriving DecidableEq, Repr

/-- A successfully created `StagingTexture` (its constructor arguments). -/
structure StagingTexture where
  width : Nat
  height : Nat
  format : Nat
deriving DecidableEq, Repr

/-- The pixel format `DirectXPixelFormat::B8G8R8A8UIntNormalized` (numeric value 87). -/
def B8G8R8A8UIntNormalized : Nat := 87

/-- The fields of `struct Capture` observable by the modelled operations.
`session_closed` / `frame_pool_closed` record successful `Close()` calls;
`frame_pool_format`, `frame_pool_buffers`, `frame_pool_size` record the
arguments of the latest `CreateFreeThreaded` / `Recreate` call. -/
structure CaptureState where
  capture_box : D3D11Box
  capture_done_signal : Channel Unit
  frame_source : Channel (Option CaptureFrame)
  staging_texture : Option StagingTexture
  content_size : SizeInt32
  stopped : Bool
  session_closed : Bool
  frame_pool_closed : Bool
  frame_pool_format : Nat
  frame_pool_buffers : Nat
  frame_pool_size : SizeInt32
deriving DecidableEq, Repr

/-- The state `Capture::new` returns on success (staging texture absent,
content size defaulted, stopped flag false, fresh frame queue of capacity 32
with both ends connected, frame pool created at the capture item's size with
the fixed pixel format and one buffer). -/
def capture_new (capture_item_size : SizeInt32) (box : D3D11Box)
    (done : Channel Unit) : CaptureState :=
  { capture_box := box
    capture_done_signal := done
    frame_source := { items := [], senderConnected := true, receiverConnected := true }
    staging_texture := none
    content_size := SizeInt32.default
    stopped := false
    session_closed := false
    frame_pool_closed := false
    frame_pool_format := B8G8R8A8UIntNormalized
    frame_pool_buffers := 1
    frame_pool_size := capture_item_size }

/-- Diagnostics printed by the producer callback. -/
inductive LogEvent where
  | droppingFrame : Int → LogEvent
  | receiverDisconnected : LogEvent
deriving DecidableEq, Repr

/-- Environment of one invocation of the `FrameArrived` callback: the result
of `frame_pool.TryGetNextFrame()`. -/
structure FrameArrivedEnv where
  try_get_next_frame : Except Err CaptureFrame
deriving DecidableEq, Repr

/-- The producer callback registered in `Capture::new`: takes the next frame
from the pool, reads its timestamp, and `try_send`s it into the queue; a full
queue drops the new frame with a diagnostic, a disconnected receiver is logged;
both are success for the callback.  A pool or timestamp failure propagates. -/
def on_frame_arrived (env : FrameArrivedEnv) (ch : Channel (Option CaptureFrame)) :
    Except Err Unit × Channel (Option CaptureFrame) × List LogEvent :=
  match env.try_get_next_frame with
  | Except.error e => (Except.error e, ch, [])
  | Except.ok frame =>
    match frame.tsRes with
    | Except.error e => (Except.error e, ch, [])
    | Except.ok ts =>
      match ch.trySend (some frame) with
      | (TrySendResult.full, ch2) => (Except.ok (), ch2, [LogEvent.droppingFrame ts])
      | (TrySendResult.disconnected, ch2) =>
        (Except.ok (), ch2, [LogEvent.receiverDisconnected])
      | (TrySendResult.sent, ch2) => (Except.ok (), ch2, [])

/-- Results of the two `Close()` calls made by `Capture::stop`. -/
structure StopEnv where
  session_close : Except Err Unit
  frame_pool_close : Except Err Unit
deriving DecidableEq, Repr

/-- Model of `Capture::stop`: sets the stopped flag, then closes the session and the
frame pool, propagating the first failure. -/
def stop (env : StopEnv) (s : CaptureState) : Except Err Unit × CaptureState :=
  let s1 := { s with stopped := true }
  match env.session_close with
  | Except.error e => (Except.error e, s1)
  | Except.ok _ =>
    let s2 := { s1 with session_closed := true }
    match env.frame_pool_close with
    | Except.error e => (Except.error e, s2)
    | Except.ok _ => (Except.ok (), { s2 with frame_pool_closed := true })

/-- Environment of one `grab` / `grab_next` call: results of every fallible
external call it can make, in source order. -/
structure GrabEnv where
  capture_item_size : Except Err SizeInt32
  get_client_box : Except Err D3D11Box
  recreate_res : Except Err Unit
  staging_new_res : Except Err Unit
  as_resource_res : Except Err Unit
  as_mapped_res : Except Err Nat
  stop_env : StopEnv
deriving DecidableEq, Repr

/-- Model of `Capture::recreate_frame_pool`: re-create the capture item and read its
size, re-read the client box into `capture_box`, then `Recreate` the pool with
the fixed pixel format, one buffer, and the new size. -/
def recreate_frame_pool (env : GrabEnv) (s : CaptureState) :
    Except Err Unit × CaptureState :=
  match env.capture_item_size with
  | Except.error e => (Except.error e, s)
  | Except.ok size =>
    match env.get_client_box with
    | Except.error e => (Except.error e, s)
    | Except.ok box =>
      let s1 := { s with capture_box := box }
      match env.recreate_res with
      | Except.error e => (Except.error e, s1)
      | Except.ok _ =>
        (Except.ok (), { s1 with
          frame_pool_format := B8G8R8A8UIntNormalized
          frame_pool_buffers := 1
          frame_pool_size := size })

/-- Outcome of `grab_next` / `grab`: normal return or `Err` return with the
post-state, a panic (an `unwrap()` on `None`), or divergence in the busy-poll
loop. -/
inductive GrabResult (α : Type) where
  | ret : α → CaptureState → GrabResult α
  | err : Err → CaptureState → GrabResult α
  | panics : GrabResult α
  | blocks : GrabResult α
deriving DecidableEq, Repr

/-- The post-state of a `GrabResult` that returned (normally or with `Err`). -/
def GrabResult.stateOf {α : Type} : GrabResult α → Option CaptureState
  | GrabResult.ret _ s => some s
  | GrabResult.err _ s => some s
  | GrabResult.panics => none
  | GrabResult.blocks => none

/-- Tail of `grab_next` from the `self.staging_texture.as_ref().unwrap()`
before `as_resource` onwards: resource bind, texture cast, and the (infallible)
`CopySubresourceRegion`. -/
def copy_and_finish (env : GrabEnv) (tex : FrameTex) (s : CaptureState) :
    GrabResult Bool :=
  match s.staging_texture with
  | none => GrabResult.panics
  | some _ =>
    match env.as_resource_res with
    | Except.error e => GrabResult.err e s
    | Except.ok _ =>
      match tex.castRes with
      | Except.error e => GrabResult.err e s
      | Except.ok _ => GrabResult.ret true s

/-- Body of `grab_next` after a frame was dequeued: surface extraction,
content-size read, the resize check (recreate pool, fresh staging texture
sized to the re-read client box with the frame texture's format, remember the
content size), then the copy. -/
def process_frame (env : GrabEnv) (frame : CaptureFrame) (s : CaptureState) :
    GrabResult Bool :=
  match frame.surface with
  | Except.error e => GrabResult.err e s
  | Except.ok tex =>
    match frame.contentSizeRes with
    | Except.error e => GrabResult.err e s
    | Except.ok cs =>
      if s.content_size.Width ≠ cs.Width ∨ s.content_size.Height ≠ cs.Height ∨
          s.staging_texture = none then
        match recreate_frame_pool env s with
        | (Except.error e, s1) => GrabResult.err e s1
        | (Except.ok _, s1) =>
          match env.staging_new_res with
          | Except.error e => GrabResult.err e s1
          | Except.ok _ =>
            copy_and_finish env tex
              { s1 with
                staging_texture := some
                  { width := sub32 s1.capture_box.right s1.capture_box.left
                    height := sub32 s1.capture_box.bottom s1.capture_box.top
                    format := tex.descFormat }
                content_size := cs }
      else
        copy_and_finish env tex s

/-- Model of `Capture::grab_next`: immediate `Ok(false)` when stopped; otherwise one
pass of the poll loop — dequeue a frame and process it, return `Ok(false)` on
the end-of-stream marker or a disconnected queue, and on an empty queue poll
the closure signal, stopping if it fired or disconnected; if both channels are
empty the loop would repeat with an identical state, i.e. it blocks. -/
def grab_next (env : GrabEnv) (s : CaptureState) : GrabResult Bool :=
  if s.stopped then GrabResult.ret false s
  else
    match s.frame_source.tryRecv with
    | (TryRecvResult.ok (some f), fs2) =>
      process_frame env f { s with frame_source := fs2 }
    | (TryRecvResult.ok none, fs2) =>
      GrabResult.ret false { s with frame_source := fs2 }
    | (TryRecvResult.disconnected, fs2) =>
      GrabResult.ret false { s with frame_source := fs2 }
    | (TryRecvResult.empty, fs2) =>
      match s.capture_done_signal.tryRecv with
      | (TryRecvResult.ok _, ds2) =>
        let s1 := { s with frame_source := fs2, capture_done_signal := ds2 }
        match stop env.stop_env s1 with
        | (Except.error e, s2) => GrabResult.err e s2
        | (Except.ok _, s2) => GrabResult.ret false s2
      | (TryRecvResult.disconnected, ds2) =>
        let s1 := { s with frame_source := fs2, capture_done_signal := ds2 }
        match stop env.stop_env s1 with
        | (Except.error e, s2) => GrabResult.err e s2
        | (Except.ok _, s2) => GrabResult.ret false s2
      | (TryRecvResult.empty, _) => GrabResult.blocks

/-- The value `Capture::grab` hands to the caller on success. -/
structure Frame where
  texture : StagingTexture
  ptr : Nat
deriving DecidableEq, Repr

/-- Model of `Capture::grab`: run `grab_next`, then on `true` unwrap the staging texture
(twice in the source) and map it for reading. -/
def grab (env : GrabEnv) (s : CaptureState) : GrabResult (Option Frame) :=
  match grab_next env s with
  | GrabResult.ret true s1 =>
    match s1.staging_texture with
    | none => GrabResult.panics
    | some tex =>
      match env.as_mapped_res with
      | Except.error e => GrabResult.err e s1
      | Except.ok p => GrabResult.ret (some { texture := tex, ptr := p }) s1
  | GrabResult.ret false s1 => GrabResult.ret none s1
  | GrabResult.err e s1 => GrabResult.err e s1
  | GrabResult.panics => GrabResult.panics
  | GrabResult.blocks => GrabResult.blocks

/-- Result of `session.StartCapture()`. -/
structure StartEnv where
  start_capture : Except Err Unit
deriving DecidableEq, Repr

/-- Model of `Capture::start`: forwards `StartCapture` on the session; takes `&self`,
so it alters no pipeline state. -/
def start (env : StartEnv) (s : CaptureState) : Except Err Unit × CaptureState :=
  (env.start_capture, s)

/-- One caller-side operation on an existing pipeline. -/
inductive Op where
  | opStart : StartEnv → Op
  | opGrab : GrabEnv → Op
  | opStop : StopEnv → Op

/-- The state after one operation (`none` when the operation panics or
blocks). -/
def applyOp (op : Op) (s : CaptureState) : Option CaptureState :=
  match op with
  | Op.opStart env => some (start env s).2
  | Op.opStop env => some (stop env s).2
  | Op.opGrab env =>
    match grab env s with
    | GrabResult.ret _ s1 => some s1
    | GrabResult.err _ s1 => some s1
    | GrabResult.panics => none
    | GrabResult.blocks => none

/-- The state after a sequence of operations. -/
def runOps : List Op → CaptureState → Option CaptureState
  | [], s => some s
  | op :: rest, s =>
    match applyOp op s with
    | none => none
    | some s1 => runOps rest s1

/-! ## Concrete instances used to witness the theorems -/

/-- A concrete client box: the clip rectangle (0,0) – (100,100). -/
def boxW : D3D11Box := ⟨0, 0, 0, 100, 100, 1⟩

/-- A concrete frame whose API calls all succeed. -/
def frameW : CaptureFrame :=
  { surface := Except.ok { descFormat := 87, castRes := Except.ok () }
    contentSizeRes := Except.ok ⟨100, 100⟩
    tsRes := Except.ok 5 }

/-- An environment in which every external call succeeds. -/
def okEnv : GrabEnv :=
  { capture_item_size := Except.ok ⟨100, 100⟩
    get_client_box := Except.ok boxW
    recreate_res := Except.ok ()
    staging_new_res := Except.ok ()
    as_resource_res := Except.ok ()
    as_mapped_res := Except.ok 0
    stop_env := { session_close := Except.ok (), frame_pool_close := Except.ok () } }

/-- A `StopEnv` in which both `Close()` calls succeed. -/
def stopOkEnv : StopEnv := { session_close := Except.ok (), frame_pool_close := Except.ok () }

/-- A `StopEnv` in which closing the session fails with error 7. -/
def failCloseEnv : StopEnv :=
  { session_close := Except.error 7, frame_pool_close := Except.ok () }

/-- A freshly constructed pipeline over `boxW`. -/
def baseState : CaptureState := capture_new ⟨100, 100⟩ boxW ⟨[], true, true⟩

/-- The fresh pipeline with one pending frame in the queue. -/
def queuedState : CaptureState :=
  { baseState with frame_source := ⟨[some frameW], true, true⟩ }

/-- The state `grab_next okEnv queuedState` ends in. -/
def queuedAfter : CaptureState :=
  { baseState with
    frame_source := ⟨[], true, true⟩
    staging_texture := some { width := 100, height := 100, format := 87 }
    content_size := ⟨100, 100⟩ }

/-- The fresh pipeline with its stopped flag raised. -/
def stoppedState : CaptureState := { baseState with stopped := true }

/-- The fresh pipeline with the end-of-stream marker at the head of the queue. -/
def eosState : CaptureState := { baseState with frame_source := ⟨[none], true, true⟩ }

/-- The state `eosState` reaches after the marker was consumed. -/
def eosAfter : CaptureState := { baseState with frame_source := ⟨[], true, true⟩ }

/-- The fresh pipeline with an empty queue and a fired closure signal. -/
def firedState : CaptureState := { baseState with capture_done_signal := ⟨[()], true, true⟩ }

/-- The state reached by stopping `baseState` with both closes succeeding. -/
def sAfterStop : CaptureState := (stop stopOkEnv baseState).2

/-- A frame whose `Surface()` call fails with error 9. -/
def failFrame : CaptureFrame :=
  { surface := Except.error 9
    contentSizeRes := Except.ok ⟨100, 100⟩
    tsRes := Except.ok 5 }

/-- The fresh pipeline with `failFrame` pending in the queue. -/
def failState : CaptureState :=
  { baseState with frame_source := ⟨[some failFrame], true, true⟩ }

/-- The state `failState` reaches after the failing frame was dequeued. -/
def failAfter : CaptureState := { baseState with frame_source := ⟨[], true, true⟩ }

/-- A frame queue holding `QUEUE_CAPACITY` frames. -/
def fullChan : Channel (Option CaptureFrame) :=
  ⟨List.replicate 32 (some frameW), true, true⟩

/-- A frame queue whose read end was dropped. -/
def deadChan : Channel (Option CaptureFrame) := ⟨[], true, false⟩

/-- A callback environment whose pool yields `frameW`. -/
def cbEnvW : FrameArrivedEnv := ⟨Except.ok frameW⟩

/-! ## Helper lemmas -/

theorem stop_stopped (env : StopEnv) (s : CaptureState) :
    ((stop env s).2).stopped = true := by
  unfold stop
  cases env.session_close <;> cases env.frame_pool_close <;> simp

theorem grab_next_of_stopped (env : GrabEnv) (s : CaptureState) (h : s.stopped = true) :
    grab_next env s = GrabResult.ret false s := by
  simp [grab_next, h]

theorem grab_of_stopped (env : GrabEnv) (s : CaptureState) (h : s.stopped = true) :
    grab env s = GrabResult.ret none s := by
  simp [grab, grab_next_of_stopped env s h]

theorem grab_next_dequeue (env : GrabEnv) (s : CaptureState) (f : CaptureFrame)
    (rest : List (Option CaptureFrame)) (h : s.stopped = false)
    (hq : s.frame_source.items = some f :: rest) :
    grab_next env s =
      process_frame env f { s with frame_source := { s.frame_source with items := rest } } := by
  simp [grab_next, h, Channel.tryRecv, hq]

theorem copy_and_finish_stateOf (env : GrabEnv) (tex : FrameTex) (s s2 : CaptureState)
    (h : (copy_and_finish env tex s).stateOf = some s2) : s2 = s := by
  unfold copy_and_finish at h
  cases hs : s.staging_texture <;> rw [hs] at h
  · simp [GrabResult.stateOf] at h
  · cases hr : env.as_resource_res <;> rw [hr] at h
    · simp [GrabResult.stateOf] at h
      exact h.symm
    · cases hc : tex.castRes <;> rw [hc] at h <;> simp [GrabResult.stateOf] at h <;>
        exact h.symm

theorem copy_and_finish_stateOf_of_some (env : GrabEnv) (tex : FrameTex) (s : CaptureState)
    (st : StagingTexture) (h : s.staging_texture = some st) :
    (copy_and_finish env tex s).stateOf = some s := by
  unfold copy_and_finish
  rw [h]
  cases hr : env.as_resource_res
  · simp [GrabResult.stateOf]
  · cases hc : tex.castRes <;> simp [GrabResult.stateOf]

theorem copy_and_finish_ret (env : GrabEnv) (tex : FrameTex) (s s2 : CaptureState) (b : Bool)
    (h : copy_and_finish env tex s = GrabResult.ret b s2) :
    b = true ∧ s2 = s ∧ s.staging_texture ≠ none := by
  unfold copy_and_finish at h
  cases hs : s.staging_texture <;> rw [hs] at h
  · simp at h
  · cases hr : env.as_resource_res <;> rw [hr] at h
    · simp at h
    · cases hc : tex.castRes <;> rw [hc] at h
      · simp at h
      · simp at h
        simp [hs, h.1.symm, h.2]

theorem copy_and_finish_ne_panics (env : GrabEnv) (tex : FrameTex) (s : CaptureState)
    (h : s.staging_texture ≠ none) : copy_and_finish env tex s ≠ GrabResult.panics := by
  unfold copy_and_finish
  cases hs : s.staging_texture
  · exact absurd hs h
  · cases hr : env.as_resource_res
    · simp
    · cases hc : tex.castRes <;> simp

theorem recreate_snd (env : GrabEnv) (s : CaptureState) :
    ((recreate_frame_pool env s).2).stopped = s.stopped ∧
    ((recreate_frame_pool env s).2).session_closed = s.session_closed ∧
    ((recreate_frame_pool env s).2).frame_pool_closed = s.frame_pool_closed ∧
    ((recreate_frame_pool env s).2).staging_texture = s.staging_texture ∧
    ((recreate_frame_pool env s).2).content_size = s.content_size ∧
    ((recreate_frame_pool env s).2).frame_source = s.frame_source := by
  unfold recreate_frame_pool
  cases hi : env.capture_item_size
  · simp
  · cases hb : env.get_client_box
    · simp
    · cases hr : env.recreate_res <;> simp

theorem process_frame_stateOf (env : GrabEnv) (f : CaptureFrame) (s s2 : CaptureState)
    (h : (process_frame env f s).stateOf = some s2) :
    s2.stopped = s.stopped ∧ s2.session_closed = s.session_closed ∧
    s2.frame_pool_closed = s.frame_pool_closed := by
  unfold process_frame at h
  cases hsurf : f.surface with
  | error e =>
    rw [hsurf] at h
    simp [GrabResult.stateOf] at h
    subst h
    exact ⟨rfl, rfl, rfl⟩
  | ok tex =>
    simp only [hsurf] at h
    cases hcs : f.contentSizeRes with
    | error e =>
      simp only [hcs] at h
      simp [GrabResult.stateOf] at h
      subst h
      exact ⟨rfl, rfl, rfl⟩
    | ok cs =>
      simp only [hcs] at h
      by_cases hc : s.content_size.Width ≠ cs.Width ∨ s.content_size.Height ≠ cs.Height ∨
          s.staging_texture = none
      · rw [if_pos hc] at h
        rcases hrec : recreate_frame_pool env s with ⟨r, s1⟩
        rw [hrec] at h
        have hpre := recreate_snd env s
        rw [hrec] at hpre
        cases r with
        | error e =>
          simp [GrabResult.stateOf] at h
          subst h
          exact ⟨hpre.1, hpre.2.1, hpre.2.2.1⟩
        | ok u =>
          cases hsn : env.staging_new_res with
          | error e =>
            rw [hsn] at h
            simp [GrabResult.stateOf] at h
            subst h
            exact ⟨hpre.1, hpre.2.1, hpre.2.2.1⟩
          | ok u2 =>
            rw [hsn] at h
            have h2 := copy_and_finish_stateOf env tex _ s2 h
            subst h2
            simpa using ⟨hpre.1, hpre.2.1, hpre.2.2.1⟩
      · rw [if_neg hc] at h
        have h2 := copy_and_finish_stateOf env tex _ s2 h
        subst h2
        exact ⟨rfl, rfl, rfl⟩

theorem process_frame_ret_true (env : GrabEnv) (f : CaptureFrame) (s s2 : CaptureState)
    (h : process_frame env f s = GrabResult.ret true s2) :
    s2.staging_texture ≠ none := by
  unfold process_frame at h
  cases hsurf : f.surface with
  | error e =>
    rw [hsurf] at h
    simp at h
  | ok tex =>
    simp only [hsurf] at h
    cases hcs : f.contentSizeRes with
    | error e =>
      simp only [hcs] at h
      simp at h
    | ok cs =>
      simp only [hcs] at h
      by_cases hc : s.content_size.Width ≠ cs.Width ∨ s.content_size.Height ≠ cs.Height ∨
          s.staging_texture = none
      · rw [if_pos hc] at h
        rcases hrec : recreate_frame_pool env s with ⟨r, s1⟩
        rw [hrec] at h
        cases r with
        | error e => simp at h
        | ok u =>
          cases hsn : env.staging_new_res with
          | error e =>
            rw [hsn] at h
            simp at h
          | ok u2 =>
            rw [hsn] at h
            have h2 := copy_and_finish_ret env tex _ s2 true h
            rw [h2.2.1]
            simp
      · rw [if_neg hc] at h
        have h2 := copy_and_finish_ret env tex _ s2 true h
        rw [h2.2.1]
        exact h2.2.2

theorem process_frame_ne_panics (env : GrabEnv) (f : CaptureFrame) (s : CaptureState) :
    process_frame env f s ≠ GrabResult.panics := by
  unfold process_frame
  cases hsurf : f.surface with
  | error e => simp
  | ok tex =>
    simp only []
    cases hcs : f.contentSizeRes with
    | error e => simp
    | ok cs =>
      simp only []
      by_cases hc : s.content_size.Width ≠ cs.Width ∨ s.content_size.Height ≠ cs.Height ∨
          s.staging_texture = none
      · rw [if_pos hc]
        rcases hrec : recreate_frame_pool env s with ⟨r, s1⟩
        cases r with
        | error e => simp
        | ok u =>
          cases hsn : env.staging_new_res with
          | error e => simp
          | ok u2 =>
            apply copy_and_finish_ne_panics
            simp
      · rw [if_neg hc]
        apply copy_and_finish_ne_panics
        push_neg at hc
        exact hc.2.2

theorem grab_next_ret_true (env : GrabEnv) (s s2 : CaptureState)
    (h : grab_next env s = GrabResult.ret true s2) :
    s2.staging_texture ≠ none := by
  unfold grab_next at h
  by_cases hst : s.stopped = true
  · rw [if_pos hst] at h
    simp at h
  · rw [if_neg hst] at h
    rcases hq : s.frame_source.tryRecv with ⟨res, fs2⟩
    cases res with
    | ok x =>
      cases x with
      | none =>
        simp only [hq] at h
        simp at h
      | some f =>
        simp only [hq] at h
        exact process_frame_ret_true env f _ s2 h
    | disconnected =>
      simp only [hq] at h
      simp at h
    | empty =>
      rcases hd : s.capture_done_signal.tryRecv with ⟨res2, ds2⟩
      cases res2 with
      | ok u =>
        rcases hstp : stop env.stop_env
            { s with frame_source := fs2, capture_done_signal := ds2 } with ⟨r2, sx⟩
        cases r2 <;> simp only [hq, hd, hstp] at h <;> simp at h
      | disconnected =>
        rcases hstp : stop env.stop_env
            { s with frame_source := fs2, capture_done_signal := ds2 } with ⟨r2, sx⟩
        cases r2 <;> simp only [hq, hd, hstp] at h <;> simp at h
      | empty =>
        simp only [hq, hd] at h
        simp at h

theorem grab_next_ne_panics (env : GrabEnv) (s : CaptureState) :
    grab_next env s ≠ GrabResult.panics := by
  unfold grab_next
  by_cases hst : s.stopped = true
  · rw [if_pos hst]
    simp
  · rw [if_neg hst]
    rcases hq : s.frame_source.tryRecv with ⟨res, fs2⟩
    simp only [hq]
    cases res with
    | ok x =>
      cases x with
      | none => simp
      | some f => exact process_frame_ne_panics env f _
    | disconnected => simp
    | empty =>
      rcases hd : s.capture_done_signal.tryRecv with ⟨res2, ds2⟩
      simp only [hd]
      cases res2 with
      | ok u =>
        rcases hstp : stop env.stop_env
            { s with frame_source := fs2, capture_done_signal := ds2 } with ⟨r2, sx⟩
        simp only [hstp]
        cases r2 <;> simp
      | disconnected =>
        rcases hstp : stop env.stop_env
            { s with frame_source := fs2, capture_done_signal := ds2 } with ⟨r2, sx⟩
        simp only [hstp]
        cases r2 <;> simp
      | empty => simp

theorem grab_ne_panics (env : GrabEnv) (s : CaptureState) :
    grab env s ≠ GrabResult.panics := by
  unfold grab
  cases hg : grab_next env s with
  | ret b s1 =>
    cases b with
    | false => simp
    | true =>
      have hsome := grab_next_ret_true env s s1 hg
      cases hs1 : s1.staging_texture with
      | none => exact absurd hs1 hsome
      | some tex =>
        cases hm : env.as_mapped_res <;> simp [hs1]
  | err e s1 => simp
  | panics => exact absurd hg (grab_next_ne_panics env s)
  | blocks => simp

theorem applyOp_stopped (op : Op) (s s2 : CaptureState) (h : s.stopped = true)
    (ha : applyOp op s = some s2) : s2.stopped = true := by
  cases op with
  | opStart env =>
    simp [applyOp, start] at ha
    exact ha ▸ h
  | opStop env =>
    simp [applyOp] at ha
    exact ha ▸ stop_stopped env s
  | opGrab env =>
    simp [applyOp, grab_of_stopped env s h] at ha
    exact ha ▸ h

theorem runOps_stopped (ops : List Op) : ∀ s s2 : CaptureState, s.stopped = true →
    runOps ops s = some s2 → s2.stopped = true := by
  induction ops with
  | nil =>
    intro s s2 h hr
    simp [runOps] at hr
    exact hr ▸ h
  | cons op rest ih =>
    intro s s2 h hr
    unfold runOps at hr
    cases ha : applyOp op s with
    | none =>
      simp only [ha] at hr
      simp at hr
    | some s1 =>
      simp only [ha] at hr
      exact ih s1 s2 (applyOp_stopped op s s1 h ha) hr

/-! ## Claim theorems -/

/-- Claim C7: when the stopped flag is already true, `grab` returns no frame
(`Ok(None)`) immediately: no error, no queue read, and the state — queue and
closure channel included — is exactly unchanged. -/
theorem claim_C7 (env : GrabEnv) (s : CaptureState) (h : s.stopped = true) :
    grab env s = GrabResult.ret none s :=
  grab_of_stopped env s h

/-- Witness for C7 at a concrete stopped pipeline. -/
theorem claim_C7_witness : grab okEnv stoppedState = GrabResult.ret none stoppedState :=
  claim_C7 okEnv stoppedState rfl

/-- Claim C10: `stop` raises the stopped flag before attempting the close calls,
so the flag is true afterwards even when closing fails and `stop` returns that
error, and every subsequent `grab` returns no frame. -/
theorem claim_C10 (env : StopEnv) (s : CaptureState) :
    ((stop env s).2).stopped = true ∧
    (∀ e, (stop env s).1 = Except.error e → ((stop env s).2).stopped = true) ∧
    (∀ env2, grab env2 (stop env s).2 = GrabResult.ret none (stop env s).2) :=
  ⟨stop_stopped env s, fun _ _ => stop_stopped env s,
    fun env2 => grab_of_stopped env2 _ (stop_stopped env s)⟩

/-- Witness for C10: a concrete `stop` whose session close fails with error 7
still leaves the flag true and later `grab`s return no frame. -/
theorem claim_C10_witness :
    ((stop failCloseEnv baseState).2).stopped = true ∧
    (stop failCloseEnv baseState).1 = Except.error 7 ∧
    grab okEnv (stop failCloseEnv baseState).2 =
      GrabResult.ret none (stop failCloseEnv baseState).2 :=
  ⟨(claim_C10 failCloseEnv baseState).1, rfl,
    (claim_C10 failCloseEnv baseState).2.2 okEnv⟩

/-- Claim C6: the stopped flag is monotonic — no operation maps it from true back
to false — and after a `stop` call any sequence of further operations (including
`start`) leaves the pipeline stopped, with every subsequent `grab` returning no
frame. -/
theorem claim_C6 :
    (∀ op (s s2 : CaptureState), s.stopped = true → applyOp op s = some s2 →
      s2.stopped = true) ∧
    (∀ (envS : StopEnv) (s : CaptureState) (ops : List Op) (s2 : CaptureState),
      runOps ops (stop envS s).2 = some s2 →
      s2.stopped = true ∧ ∀ envG, grab envG s2 = GrabResult.ret none s2) := by
  constructor
  · exact applyOp_stopped
  · intro envS s ops s2 hr
    have h2 := runOps_stopped ops _ s2 (stop_stopped envS s) hr
    exact ⟨h2, fun envG => grab_of_stopped envG s2 h2⟩

/-- Witness for C6: stopping the fresh pipeline and then calling `start` leaves it
stopped, and `grab` keeps returning no frame. -/
theorem claim_C6_witness :
    sAfterStop.stopped = true ∧
    ∀ envG, grab envG sAfterStop = GrabResult.ret none sAfterStop :=
  claim_C6.2 stopOkEnv baseState [Op.opStart { start_capture := Except.ok () }]
    sAfterStop rfl

/-- Claim C1 is refuted: with the end-of-stream marker at the head of the queue,
`grab` returns no frame but the stopped flag stays false and neither the session
nor the frame pool is closed — the pipeline does not transition to Stopped. -/
theorem claim_C1_counterexample :
    grab okEnv eosState = GrabResult.ret none eosAfter ∧
    eosAfter.stopped = false ∧ eosAfter.session_closed = false ∧
    eosAfter.frame_pool_closed = false :=
  ⟨rfl, rfl, rfl, rfl⟩

/-- Claim C1 (amended): when the queue read yields the end-of-stream marker or
detects that the write end has disappeared, `grab` returns no frame (`Ok(None)`),
but the pipeline does not transition to Stopped: the stopped flag remains false,
session and pool are not released, and only the queue item (if any) is consumed. -/
theorem claim_C1_amended (env : GrabEnv) (s : CaptureState) (h : s.stopped = false)
    (hq : s.frame_source.items.head? = some none ∨
      (s.frame_source.items = [] ∧ s.frame_source.senderConnected = false)) :
    ∃ s2, grab env s = GrabResult.ret none s2 ∧
      s2.stopped = false ∧ s2.session_closed = s.session_closed ∧
      s2.frame_pool_closed = s.frame_pool_closed ∧
      s2.staging_texture = s.staging_texture := by
  rcases hq with hq | ⟨hq1, hq2⟩
  · cases hl : s.frame_source.items with
    | nil =>
      rw [hl] at hq
      simp at hq
    | cons x rest =>
      rw [hl] at hq
      simp at hq
      subst hq
      refine ⟨{ s with frame_source := { s.frame_source with items := rest } },
        ?_, h, rfl, rfl, rfl⟩
      have hg : grab_next env s =
          GrabResult.ret false { s with frame_source := { s.frame_source with items := rest } } := by
        simp [grab_next, h, Channel.tryRecv, hl]
      simp [grab, hg]
  · refine ⟨s, ?_, h, rfl, rfl, rfl⟩
    obtain ⟨cb, ds, fs, st, csz, stp, sc, fpc, fpf, fpb, fps⟩ := s
    simp only at h hq1 hq2
    subst h
    simp [grab, grab_next, Channel.tryRecv, hq1, hq2]

/-- Witness for the amended C1 at the concrete end-of-stream state. -/
theorem claim_C1_amended_witness :
    ∃ s2, grab okEnv eosState = GrabResult.ret none s2 ∧
      s2.stopped = false ∧ s2.session_closed = eosState.session_closed ∧
      s2.frame_pool_closed = eosState.frame_pool_closed ∧
      s2.staging_texture = eosState.staging_texture :=
  claim_C1_amended okEnv eosState rfl (Or.inl rfl)

/-- Claim C4: while the queue is empty, `grab` polls the closure channel without
blocking; once it has fired or disconnected (with the two close calls succeeding),
`grab` transitions the pipeline to Stopped — flag raised, session and pool closed —
and returns no frame, and every subsequent `grab` also returns no frame without
error. -/
theorem claim_C4 (env : GrabEnv) (s : CaptureState) (h : s.stopped = false)
    (hempty : s.frame_source.items = [])
    (hconn : s.frame_source.senderConnected = true)
    (hsig : s.capture_done_signal.items ≠ [] ∨
      s.capture_done_signal.senderConnected = false)
    (hc1 : env.stop_env.session_close = Except.ok ())
    (hc2 : env.stop_env.frame_pool_close = Except.ok ()) :
    ∃ s2, grab env s = GrabResult.ret none s2 ∧ s2.stopped = true ∧
      s2.session_closed = true ∧ s2.frame_pool_closed = true ∧
      ∀ env2, grab env2 s2 = GrabResult.ret none s2 := by
  cases hd : s.capture_done_signal.items with
  | cons u rest =>
    refine ⟨{ s with
        capture_done_signal := { s.capture_done_signal with items := rest },
        stopped := true, session_closed := true, frame_pool_closed := true },
      ?_, rfl, rfl, rfl, fun env2 => grab_of_stopped env2 _ rfl⟩
    have hg : grab_next env s = GrabResult.ret false { s with
        capture_done_signal := { s.capture_done_signal with items := rest },
        stopped := true, session_closed := true, frame_pool_closed := true } := by
      simp [grab_next, h, Channel.tryRecv, hempty, hconn, hd, stop, hc1, hc2]
    simp [grab, hg]
  | nil =>
    have hdis : s.capture_done_signal.senderConnected = false := by
      rcases hsig with hne | hdis
      · exact absurd hd hne
      · exact hdis
    refine ⟨{ s with
        stopped := true, session_closed := true, frame_pool_closed := true },
      ?_, rfl, rfl, rfl, fun env2 => grab_of_stopped env2 _ rfl⟩
    have hg : grab_next env s = GrabResult.ret false { s with
        stopped := true, session_closed := true, frame_pool_closed := true } := by
      simp [grab_next, h, Channel.tryRecv, hempty, hconn, hd, hdis, stop, hc1, hc2]
    simp [grab, hg]

/-- Witness for C4 at a concrete pipeline with an empty queue and a fired closure
signal. -/
theorem claim_C4_witness :
    ∃ s2, grab okEnv firedState = GrabResult.ret none s2 ∧ s2.stopped = true ∧
      s2.session_closed = true ∧ s2.frame_pool_closed = true ∧
      ∀ env2, grab env2 s2 = GrabResult.ret none s2 :=
  claim_C4 okEnv firedState rfl rfl rfl (Or.inl (by decide)) rfl rfl

/-- Claim C5: once a frame has been dequeued, any failure in the surface
extraction, content-size read, resize, copy-bind or mapping steps surfaces as an
error from `grab`, and the stopped flag stays false — the pipeline remains
Started and the caller may call `grab` again. -/
theorem claim_C5 (env : GrabEnv) (s : CaptureState) (f : CaptureFrame)
    (rest : List (Option CaptureFrame)) (h : s.stopped = false)
    (hq : s.frame_source.items = some f :: rest) :
    ∀ e s2, grab env s = GrabResult.err e s2 → s2.stopped = false := by
  intro e s2 hg
  have hd := grab_next_dequeue env s f rest h hq
  unfold grab at hg
  cases hp : process_frame env f
      { s with frame_source := { s.frame_source with items := rest } } with
  | ret b s1 =>
    rw [hd, hp] at hg
    cases b with
    | false => simp at hg
    | true =>
      have hsome := process_frame_ret_true env f _ s1 hp
      cases hs1 : s1.staging_texture with
      | none => exact absurd hs1 hsome
      | some tex =>
        have hpre := process_frame_stateOf env f _ s1 (by rw [hp]; rfl)
        cases hm : env.as_mapped_res with
        | error e2 =>
          simp only [hs1, hm] at hg
          simp at hg
          rw [← hg.2, hpre.1]
          exact h
        | ok p =>
          simp only [hs1, hm] at hg
          simp at hg
  | err e1 s1 =>
    rw [hd, hp] at hg
    simp at hg
    have hpre := process_frame_stateOf env f _ s1 (by rw [hp]; rfl)
    rw [← hg.2, hpre.1]
    exact h
  | panics => exact absurd hp (process_frame_ne_panics env f _)
  | blocks =>
    rw [hd, hp] at hg
    simp at hg

/-- Witness for C5: a concrete queued frame whose surface extraction fails with
error 9 leaves the pipeline started. -/
theorem claim_C5_witness : failAfter.stopped = false :=
  claim_C5 okEnv failState failFrame [] rfl rfl 9 failAfter (by decide)

/-- Claim C3: after dequeueing a frame, when its content size differs from the
remembered size or no staging texture exists yet, `grab_next` re-reads the clip
box from the source, recreates the pool with the fixed pixel format and depth 1
at the re-read size, allocates a staging texture of dimensions
`(box.right - box.left, box.bottom - box.top)` with the frame texture's format,
and remembers the content size; otherwise the clip box, pool, staging texture
and remembered content size are all left untouched. -/
theorem claim_C3 (env : GrabEnv) (s : CaptureState) (f : CaptureFrame) (tex : FrameTex)
    (cs : SizeInt32) (rest : List (Option CaptureFrame))
    (h : s.stopped = false) (hq : s.frame_source.items = some f :: rest)
    (hsurf : f.surface = Except.ok tex) (hcs : f.contentSizeRes = Except.ok cs) :
    ((s.content_size.Width ≠ cs.Width ∨ s.content_size.Height ≠ cs.Height ∨
        s.staging_texture = none) →
      ∀ sz box, env.capture_item_size = Except.ok sz →
        env.get_client_box = Except.ok box → env.recreate_res = Except.ok () →
        env.staging_new_res = Except.ok () →
        ∃ s2, (grab_next env s).stateOf = some s2 ∧
          s2.capture_box = box ∧
          s2.frame_pool_format = B8G8R8A8UIntNormalized ∧
          s2.frame_pool_buffers = 1 ∧
          s2.frame_pool_size = sz ∧
          s2.staging_texture = some
            { width := sub32 box.right box.left, height := sub32 box.bottom box.top,
              format := tex.descFormat } ∧
          s2.content_size = cs) ∧
    (¬(s.content_size.Width ≠ cs.Width ∨ s.content_size.Height ≠ cs.Height ∨
        s.staging_texture = none) →
      ∃ s2, (grab_next env s).stateOf = some s2 ∧
        s2.capture_box = s.capture_box ∧
        s2.frame_pool_format = s.frame_pool_format ∧
        s2.frame_pool_buffers = s.frame_pool_buffers ∧
        s2.frame_pool_size = s.frame_pool_size ∧
        s2.staging_texture = s.staging_texture ∧
        s2.content_size = s.content_size) := by
  have hd := grab_next_dequeue env s f rest h hq
  constructor
  · intro hc sz box hsz hbox hrec hsn
    refine ⟨{ s with
        frame_source := { s.frame_source with items := rest },
        capture_box := box,
        frame_pool_format := B8G8R8A8UIntNormalized,
        frame_pool_buffers := 1,
        frame_pool_size := sz,
        staging_texture := some
          { width := sub32 box.right box.left, height := sub32 box.bottom box.top,
            format := tex.descFormat },
        content_size := cs }, ?_, rfl, rfl, rfl, rfl, rfl, rfl⟩
    rw [hd]
    unfold process_frame
    simp only [hsurf, hcs]
    rw [if_pos hc]
    simp only [recreate_frame_pool, hsz, hbox, hrec, hsn]
    exact copy_and_finish_stateOf_of_some env tex _ _ rfl
  · intro hc
    push_neg at hc
    refine ⟨{ s with frame_source := { s.frame_source with items := rest } },
      ?_, rfl, rfl, rfl, rfl, rfl, rfl⟩
    rw [hd]
    unfold process_frame
    simp only [hsurf, hcs]
    rw [if_neg]
    · obtain ⟨st, hst⟩ := Option.ne_none_iff_exists'.mp hc.2.2
      exact copy_and_finish_stateOf_of_some env tex _ st hst
    · push_neg
      exact hc

/-- Witness for C3 at the fresh pipeline (no staging texture yet), exercising the
resize branch. -/
theorem claim_C3_witness :
    ∃ s2, (grab_next okEnv queuedState).stateOf = some s2 ∧
      s2.capture_box = boxW ∧
      s2.frame_pool_format = B8G8R8A8UIntNormalized ∧
      s2.frame_pool_buffers = 1 ∧
      s2.frame_pool_size = ⟨100, 100⟩ ∧
      s2.staging_texture = some
        { width := sub32 boxW.right boxW.left, height := sub32 boxW.bottom boxW.top,
          format := 87 } ∧
      s2.content_size = ⟨100, 100⟩ :=
  (claim_C3 okEnv queuedState frameW { descFormat := 87, castRes := Except.ok () }
      ⟨100, 100⟩ [] rfl rfl rfl rfl).1
    (Or.inr (Or.inr rfl)) ⟨100, 100⟩ boxW rfl rfl rfl rfl

/-- Claim C2: the pending-frame queue is bounded at 32 (`1 << 5`): the producer
callback preserves the bound; a callback hitting a full queue leaves the queue
unchanged (the newest arrival is dropped, all older frames preserved) and emits a
drop diagnostic while still returning success; with room and a live reader it
appends the new frame at the tail; and the consumer's read takes the head — so
delivered frames reach `grab` in first-in-first-out production order. -/
theorem claim_C2 (env : FrameArrivedEnv) (ch : Channel (Option CaptureFrame))
    (f : CaptureFrame) (ts : Int)
    (hf : env.try_get_next_frame = Except.ok f) (hts : f.tsRes = Except.ok ts) :
    (ch.items.length ≤ QUEUE_CAPACITY →
      (on_frame_arrived env ch).2.1.items.length ≤ QUEUE_CAPACITY) ∧
    (ch.items.length = QUEUE_CAPACITY → ch.receiverConnected = true →
      (on_frame_arrived env ch).1 = Except.ok () ∧
      (on_frame_arrived env ch).2.1 = ch ∧
      (on_frame_arrived env ch).2.2 = [LogEvent.droppingFrame ts]) ∧
    (ch.items.length < QUEUE_CAPACITY → ch.receiverConnected = true →
      (on_frame_arrived env ch).1 = Except.ok () ∧
      (on_frame_arrived env ch).2.1.items = ch.items ++ [some f]) ∧
    (∀ x rest, ch.items = x :: rest →
      ch.tryRecv = (TryRecvResult.ok x, { ch with items := rest })) := by
  refine ⟨?_, ?_, ?_, ?_⟩
  · intro hlen
    by_cases hrc : ch.receiverConnected = false
    · simp [on_frame_arrived, hf, hts, Channel.trySend, hrc, hlen]
    · by_cases hfull : QUEUE_CAPACITY ≤ ch.items.length
      · simp [on_frame_arrived, hf, hts, Channel.trySend, hrc, hfull, hlen]
      · simp [on_frame_arrived, hf, hts, Channel.trySend, hrc, hfull]
        omega
  · intro hlen hrc
    simp [on_frame_arrived, hf, hts, Channel.trySend, hrc, hlen]
  · intro hlen hrc
    have hfull : ¬ QUEUE_CAPACITY ≤ ch.items.length := by omega
    simp [on_frame_arrived, hf, hts, Channel.trySend, hrc, hfull]
  · intro x rest hx
    simp [Channel.tryRecv, hx]

/-- Witness for C2: the callback on a concrete full queue of 32 frames drops the
new frame, keeps the queue, and logs the drop. -/
theorem claim_C2_witness :
    (on_frame_arrived cbEnvW fullChan).1 = Except.ok () ∧
    (on_frame_arrived cbEnvW fullChan).2.1 = fullChan ∧
    (on_frame_arrived cbEnvW fullChan).2.2 = [LogEvent.droppingFrame 5] :=
  (claim_C2 cbEnvW fullChan frameW 5 rfl rfl).2.1 (by decide) rfl

/-- Claim C8: the producer callback returns success (merely logging) when the
queue's read end has been discarded, but when the pool fails to yield a surface
it propagates that error to the capture runtime. -/
theorem claim_C8 (env : FrameArrivedEnv) (ch : Channel (Option CaptureFrame)) :
    (ch.receiverConnected = false →
      ∀ f ts, env.try_get_next_frame = Except.ok f → f.tsRes = Except.ok ts →
        on_frame_arrived env ch =
          (Except.ok (), ch, [LogEvent.receiverDisconnected])) ∧
    (∀ e, env.try_get_next_frame = Except.error e →
      on_frame_arrived env ch = (Except.error e, ch, [])) := by
  constructor
  · intro hrc f ts hf hts
    simp [on_frame_arrived, hf, hts, Channel.trySend, hrc]
  · intro e hf
    simp [on_frame_arrived, hf]

/-- Witness for C8 on a concrete dropped-receiver queue and a concrete failing
pool. -/
theorem claim_C8_witness :
    on_frame_arrived cbEnvW deadChan =
      (Except.ok (), deadChan, [LogEvent.receiverDisconnected]) ∧
    on_frame_arrived ⟨Except.error 3⟩ deadChan = (Except.error 3, deadChan, []) :=
  ⟨(claim_C8 cbEnvW deadChan).1 rfl frameW 5 rfl rfl,
    (claim_C8 ⟨Except.error 3⟩ deadChan).2 3 rfl⟩

/-- Claim C9: whenever `grab_next` returns true a staging texture is present, and
neither `grab_next` nor `grab` ever reaches an `unwrap()` panic. -/
theorem claim_C9 (env : GrabEnv) (s : CaptureState) :
    (∀ s2, grab_next env s = GrabResult.ret true s2 → s2.staging_texture ≠ none) ∧
    grab_next env s ≠ GrabResult.panics ∧ grab env s ≠ GrabResult.panics :=
  ⟨fun s2 hg => grab_next_ret_true env s s2 hg, grab_next_ne_panics env s,
    grab_ne_panics env s⟩

/-- Witness for C9 at a concrete successful `grab_next`. -/
theorem claim_C9_witness : queuedAfter.staging_texture ≠ none :=
  (claim_C9 okEnv queuedState).1 queuedAfter (by decide)

end Zbl
